import Mathlib

/-!
# Verification of the stock_adk coordination-and-decision core

Shallow embedding of the coordination layer of the `stock_adk` repository:
the weighted decision engine (`orchestrator/decision_engine.py`), the
fan-out RPC client (`orchestrator/tools.py`), the weight-update endpoint
(`orchestrator/server.py`), risk-based position sizing
(`sub_agents/risk_agent/tools.py`) and ticker resolution
(`shared/ticker_utils.py`).

Python floats are modelled as rationals (`ℚ`), Python ints as `ℤ`,
Python dicts either as association lists (when iteration order matters)
or as functions into `Option` (when only lookup is used).
-/

namespace StockAdk

/-- Python's `round` applied to an integer target: round half to even. -/
def pyRoundInt (x : ℚ) : ℤ :=
  if x - ⌊x⌋ < 1/2 then ⌊x⌋
  else if 1/2 < x - ⌊x⌋ then ⌊x⌋ + 1
  else if ⌊x⌋ % 2 = 0 then ⌊x⌋ else ⌊x⌋ + 1

/-- Python's `round(x, 4)`: round to 4 decimal places, half to even. -/
def round4 (x : ℚ) : ℚ := (pyRoundInt (x * 10000) : ℚ) / 10000

/-- Python's `round(x, 2)`: round to 2 decimal places, half to even. -/
def round2 (x : ℚ) : ℚ := (pyRoundInt (x * 100) : ℚ) / 100

/-- Python's `int(x)` on a float: truncation toward zero. -/
def pyInt (x : ℚ) : ℤ := if 0 ≤ x then ⌊x⌋ else ⌈x⌉

namespace DecisionEngine

/-- `_DEFAULT_WEIGHTS` from `orchestrator/decision_engine.py`
(an insertion-ordered dict, modelled as an association list). -/
def DEFAULT_WEIGHTS : List (String × ℚ) :=
  [("technical", 30/100),
   ("fundamental", 25/100),
   ("news", 20/100),
   ("expert", 15/100),
   ("risk", 10/100)]

/-- `THRESHOLDS` dict: `{"buy": ..., "sell": ...}`. -/
structure Thresholds where
  buy : ℚ
  sell : ℚ
deriving DecidableEq, Repr

/-- `_DEFAULT_THRESHOLDS` from `orchestrator/decision_engine.py`. -/
def DEFAULT_THRESHOLDS : Thresholds := { buy := 3/10, sell := -3/10 }

/-- `agent_results.get(key, 0.0)` for an `agent_results : dict[str, float]`
modelled as a partial map. -/
def getScore (agent_results : String → Option ℚ) (key : String) : ℚ :=
  (agent_results key).getD 0

/-- `compute_final_score` from `orchestrator/decision_engine.py`:
`sum(agent_results.get(key, 0.0) * weight for key, weight in WEIGHTS.items())`,
then `round(score, 4)`.  The process-global `WEIGHTS` dict is passed
explicitly. -/
def compute_final_score (WEIGHTS : List (String × ℚ))
    (agent_results : String → Option ℚ) : ℚ :=
  round4 ((WEIGHTS.map (fun kw => getScore agent_results kw.1 * kw.2)).sum)

/-- `determine_action` from `orchestrator/decision_engine.py`, with the
process-global `THRESHOLDS` passed explicitly. -/
def determine_action (THRESHOLDS : Thresholds) (final_score : ℚ) : String :=
  if final_score > THRESHOLDS.buy then "BUY"
  else if final_score < THRESHOLDS.sell then "SELL"
  else "HOLD"

/-- The `risk_output` dict consumed by `make_decision` (keys looked up
with `.get`, so every field is optional). -/
structure RiskOutput where
  position_size : Option ℤ := none
  risk_level : Option String := none
  stop_loss_price : Option ℚ := none
  take_profit_price : Option ℚ := none
  current_price : Option ℚ := none
deriving DecidableEq, Repr

/-- `TradeDecision` fields from `shared/models.py` that `make_decision`
computes (the reasoning string and timestamp are not modelled). -/
structure TradeDecision where
  ticker : String
  market : String
  action : String
  final_score : ℚ
  quantity : ℤ
  target_price : ℚ
  stop_loss : ℚ
  take_profit : ℚ
  agent_scores : String → Option ℚ

/-- `make_decision` from `orchestrator/decision_engine.py`. -/
def make_decision (WEIGHTS : List (String × ℚ)) (THRESHOLDS : Thresholds)
    (ticker : String) (market : String)
    (agent_results : String → Option ℚ) (risk_output : RiskOutput)
    (current_price : ℚ := 0) : TradeDecision :=
  let final_score := compute_final_score WEIGHTS agent_results
  let action := determine_action THRESHOLDS final_score
  -- quantity = risk_output.get("position_size", 0)
  let quantity : ℤ := risk_output.position_size.getD 0
  -- if risk_output.get("risk_level") == "high": quantity = max(1, quantity // 2)
  let quantity : ℤ :=
    if risk_output.risk_level = some "high" then max 1 (Int.fdiv quantity 2)
    else quantity
  -- if action == "HOLD": quantity = 0
  let quantity : ℤ := if action = "HOLD" then 0 else quantity
  let stop_loss := risk_output.stop_loss_price.getD 0
  let take_profit := risk_output.take_profit_price.getD 0
  -- target_price = current_price or risk_output.get("current_price", 0.0)
  let target_price :=
    if current_price = 0 then risk_output.current_price.getD 0 else current_price
  { ticker := ticker
    market := market
    action := action
    final_score := final_score
    quantity := quantity
    target_price := target_price
    stop_loss := stop_loss
    take_profit := take_profit
    agent_scores := agent_results }

/-- Spec-side formulation of `combineScores` (§4.3 of the spec):
`Σ weight[k] * peer_scores.get(k, 0.0)` over the keys `k` of the weight
mapping, rounded to 4 decimal places. -/
def combineScores_spec (weights : List (String × ℚ))
    (peer_scores : String → Option ℚ) : ℚ :=
  round4 ((weights.map (fun kw => kw.2 * getScore peer_scores kw.1)).sum)

/-- The un-rounded weighted sum computed inside `compute_final_score`. -/
def weightedSum (WEIGHTS : List (String × ℚ))
    (agent_results : String → Option ℚ) : ℚ :=
  (WEIGHTS.map (fun kw => getScore agent_results kw.1 * kw.2)).sum

/-- The weight-sum invariant on `WeightConfig` (§3 of the spec):
values sum to 1.0 ± 0.01. -/
def weightSumOk (weights : List (String × ℚ)) : Prop :=
  99/100 ≤ (weights.map Prod.snd).sum ∧ (weights.map Prod.snd).sum ≤ 101/100

instance (weights : List (String × ℚ)) : Decidable (weightSumOk weights) := by
  unfold weightSumOk; infer_instance

/-- Pointwise scaling of a peer-score map by a scalar `k`
(`{name: k * s for name, s in peer_scores.items()}`). -/
def scaleScores (k : ℚ) (m : String → Option ℚ) : String → Option ℚ :=
  fun s => (m s).map (fun x => k * x)

end DecisionEngine

namespace OrchestratorTools

/-- One element of a `parts` array in an A2A JSON-RPC response
(`part.get("text", "")` is modelled by an optional field). -/
structure Part where
  text : Option String := none
deriving DecidableEq, Repr

/-- One element of `result.artifacts` (`artifact.get("parts", [])`). -/
structure Artifact where
  parts : List Part := []
deriving DecidableEq, Repr

/-- The parsed JSON body of a 2xx A2A response as consumed by
`orchestrator/tools.py`: the top-level `error` field (stringified when
present), `result.artifacts` (empty when absent), and
`result.status.message.parts` (`none` when the message is absent or not a
dict, matching the `isinstance(status_msg, dict)` guard). -/
structure RpcResponse where
  error : Option String := none
  artifacts : List Artifact := []
  statusMessageParts : Option (List Part) := none
deriving DecidableEq, Repr

/-- `_extract_response_text` from `orchestrator/tools.py`: try
`result.artifacts[0].parts[0].text`, fall back to
`result.status.message.parts[0].text`, default to the empty string. -/
def _extract_response_text (r : RpcResponse) : String :=
  let path2 : String :=
    match r.statusMessageParts with
    | some (p :: _) => p.text.getD ""
    | _ => ""
  match r.artifacts with
  | a :: _ =>
      match a.parts with
      | p :: _ => if p.text.getD "" ≠ "" then p.text.getD "" else path2
      | [] => path2
  | [] => path2

/-- `MAX_RESPONSE_LENGTH` from `orchestrator/tools.py`. -/
def MAX_RESPONSE_LENGTH : Nat := 3000

/-- `AGENT_CALL_TIMEOUT` default from `orchestrator/tools.py` (seconds). -/
def AGENT_CALL_TIMEOUT : ℚ := 90

/-- Outcome of the network interaction underlying one
`client.post(...)` call: the distinctly-handled `httpx` exceptions, any
other exception raised during the call (non-2xx status, JSON parse
failure, ...), or a parsed 2xx JSON body. -/
inductive CallBehavior where
  | timeout
  | connectError
  | exn (msg : String)
  | response (body : RpcResponse)
deriving DecidableEq, Repr

/-- The per-agent result dict built by `_call_single_agent`
(`status`/`agent` always present, `analysis` on success, `error` on
failure). -/
structure AgentResult where
  status : String
  agent : String
  analysis : Option String := none
  error : Option String := none
deriving DecidableEq, Repr

/-- `_call_single_agent` from `orchestrator/tools.py`, with the network
interaction abstracted as a `CallBehavior`.  Every behavior maps to a
result dict; no case raises. -/
def _call_single_agent (behavior : CallBehavior)
    (agent_name url _message : String) (timeout : ℚ) : AgentResult :=
  match behavior with
  | .timeout =>
      { status := "error", agent := agent_name,
        error := some ("Timeout after " ++ toString timeout ++ "s") }
  | .connectError =>
      { status := "error", agent := agent_name,
        error := some ("Connection refused: " ++ url) }
  | .exn msg =>
      { status := "error", agent := agent_name, error := some msg }
  | .response body =>
      match body.error with
      | some e => { status := "error", agent := agent_name, error := some e }
      | none =>
          let text := _extract_response_text body
          if text = "" then
            { status := "error", agent := agent_name,
              error := some "Empty response" }
          else
            let text :=
              if text.length > MAX_RESPONSE_LENGTH then
                text.take MAX_RESPONSE_LENGTH ++ "\n... (truncated)"
              else text
            { status := "success", agent := agent_name, analysis := some text }

/-- One entry of `AGENT_CONFIG` from `orchestrator/tools.py`.  The message
template `"...: {ticker} ({market})"` is stored as its leading text;
`formatMessage` appends the substituted tail. -/
structure AgentCfg where
  name : String
  host_env : String
  port_env : String
  default_host : String
  default_port : String
  template_lead : String
deriving DecidableEq, Repr

/-- `AGENT_CONFIG` from `orchestrator/tools.py`: the five configured
peers. -/
def AGENT_CONFIG : List AgentCfg :=
  [{ name := "news_agent", host_env := "NEWS_AGENT_HOST",
     port_env := "NEWS_AGENT_PORT", default_host := "localhost",
     default_port := "8001",
     template_lead := "다음 종목의 뉴스와 시황을 분석해주세요: " },
   { name := "fundamental_agent", host_env := "FUNDAMENTAL_AGENT_HOST",
     port_env := "FUNDAMENTAL_AGENT_PORT", default_host := "localhost",
     default_port := "8002",
     template_lead := "다음 종목의 재무제표를 분석해주세요: " },
   { name := "technical_agent", host_env := "TECHNICAL_AGENT_HOST",
     port_env := "TECHNICAL_AGENT_PORT", default_host := "localhost",
     default_port := "8003",
     template_lead := "다음 종목의 기술적 분석을 해주세요: " },
   { name := "expert_agent", host_env := "EXPERT_AGENT_HOST",
     port_env := "EXPERT_AGENT_PORT", default_host := "localhost",
     default_port := "8004",
     template_lead := "다음 종목의 전문가 신호를 수집해주세요: " },
   { name := "risk_agent", host_env := "RISK_AGENT_HOST",
     port_env := "RISK_AGENT_PORT", default_host := "localhost",
     default_port := "8005",
     template_lead := "현재 계좌 상태를 고려하여 리스크를 평가해주세요: " }]

/-- `cfg["message_template"].format(ticker=ticker, market=market)`. -/
def formatMessage (cfg : AgentCfg) (ticker market : String) : String :=
  cfg.template_lead ++ ticker ++ " (" ++ market ++ ")"

/-- URL construction from `analyze_all_agents`:
`http://{host}:{port}/` with env-var overrides of the defaults. -/
def agentUrl (env : String → Option String) (cfg : AgentCfg) : String :=
  let host := (env cfg.host_env).getD cfg.default_host
  let port := (env cfg.port_env).getD cfg.default_port
  "http://" ++ host ++ ":" ++ port ++ "/"

/-- The aggregate dict returned by `analyze_all_agents`. -/
structure AnalyzeResult where
  ticker : String
  market : String
  success_count : Nat
  total_count : Nat
  agents : List (String × AgentResult)
deriving DecidableEq, Repr

/-- `analyze_all_agents` from `orchestrator/tools.py`: one
`_call_single_agent` call per configured peer (the per-peer network
outcome given by `net`), aggregated by peer name.  `_call_single_agent`
is total, so the `isinstance(result, Exception)` branch of the source
aggregation loop is unreachable and the model maps results directly. -/
def analyze_all_agents (net : String → CallBehavior)
    (env : String → Option String) (timeout : ℚ)
    (ticker market : String) : AnalyzeResult :=
  let results := AGENT_CONFIG.map (fun cfg =>
    _call_single_agent (net cfg.name) cfg.name (agentUrl env cfg)
      (formatMessage cfg ticker market) timeout)
  let agents := (AGENT_CONFIG.zip results).map (fun p => (p.1.name, p.2))
  let success_count :=
    (results.filter (fun r => r.status == "success")).length
  { ticker := ticker, market := market,
    success_count := success_count,
    total_count := AGENT_CONFIG.length,
    agents := agents }

/-- Dict lookup `agents[name]` on the aggregated per-agent map. -/
def lookupAgent (name : String) (l : List (String × AgentResult)) :
    Option AgentResult :=
  (l.find? (fun p => p.1 == name)).map Prod.snd

/-- A peer-level failure, in the taxonomy of the claim: timeout,
connection error, any other exception, an RPC error envelope, or an
empty extraction from a 2xx body. -/
def isFailure : CallBehavior → Bool
  | .timeout => true
  | .connectError => true
  | .exn _ => true
  | .response body =>
      body.error.isSome || _extract_response_text body == ""

/-- Spec-side extraction path (a): `result.artifacts[0].parts[0].text`. -/
def textPathA (r : RpcResponse) : String :=
  match r.artifacts with
  | a :: _ =>
      match a.parts with
      | p :: _ => p.text.getD ""
      | [] => ""
  | [] => ""

/-- Spec-side extraction path (b):
`result.status.message.parts[0].text`. -/
def textPathB (r : RpcResponse) : String :=
  match r.statusMessageParts with
  | some (p :: _) => p.text.getD ""
  | _ => ""

/-- Spec-side reply extraction (§4.1): first non-empty among path (a) and
path (b). -/
def extractText_spec (r : RpcResponse) : String :=
  if textPathA r ≠ "" then textPathA r else textPathB r

end OrchestratorTools

namespace OrchestratorServer

/-- Association-list lookup modelling `weights.get(key, default)`. -/
def dictGet (w : List (String × ℚ)) (k : String) (d : ℚ) : ℚ :=
  ((w.find? (fun p => p.1 == k)).map Prod.snd).getD d

/-- The `required_keys` set of `update_weights` in
`orchestrator/server.py`. -/
def requiredKeys : List String :=
  ["technical", "fundamental", "news", "expert", "risk"]

/-- Python set equality `set(keys) == set(req)` on key lists. -/
def keysSetEq (keys req : List String) : Bool :=
  keys.all (fun k => req.contains k) && req.all (fun k => keys.contains k)

/-- The state touched by the `update_weights` endpoint: the weights and
thresholds in the config store (Redis), the stored orchestrator prompt
(`none` when the key is absent), the in-process
`root_agent.instruction`, and the decision engine's cached `WEIGHTS` /
`THRESHOLDS` globals. -/
structure ServerState where
  storedWeights : List (String × ℚ)
  storedThresholds : DecisionEngine.Thresholds
  orchestratorPrompt : Option String
  instruction : String
  cachedWeights : List (String × ℚ)
  cachedThresholds : DecisionEngine.Thresholds
deriving DecidableEq, Repr

/-- One row of the rebuilt weight table in
`_update_weight_table_in_prompt`. -/
def weightRow (w : List (String × ℚ)) (key agent_name desc : String) :
    String :=
  "| " ++ agent_name ++ " | " ++ toString (pyInt (dictGet w key 0 * 100))
    ++ "% | " ++ desc ++ " |"

/-- The `new_table` string built by `_update_weight_table_in_prompt`. -/
def newWeightTable (w : List (String × ℚ)) : String :=
  "## 가중치\n\n| Agent | 가중치 | 설명 |\n|-------|--------|------|\n"
    ++ String.intercalate "\n"
      [weightRow w "technical" "technical_agent" "차트 기술적 분석",
       weightRow w "fundamental" "fundamental_agent" "재무제표 분석",
       weightRow w "news" "news_agent" "뉴스/센티먼트",
       weightRow w "expert" "expert_agent" "전문가 신호",
       weightRow w "risk" "risk_agent" "리스크 조정"]
    ++ "\n"

/-- The regex substitution of `_update_weight_table_in_prompt` (replace
from the first weight-section header line up to, but excluding, the next
header line starting with "## "; prompts without such a section are
returned unchanged), modelled line-wise. -/
def replaceWeightSection (prompt_text newTable : String) : String :=
  let lines := prompt_text.splitOn "\n"
  let isHeader := fun (l : String) =>
    l.startsWith "## 가중치"
      && (l.drop ("## 가중치".length)).all Char.isWhitespace
  match lines.findIdx? isHeader with
  | none => prompt_text
  | some i =>
      match (lines.drop (i + 1)).findIdx? (fun l => l.startsWith "## ") with
      | none => prompt_text
      | some j =>
          (if i = 0 then "" else
            String.intercalate "\n" (lines.take i) ++ "\n")
            ++ newTable ++ "\n"
            ++ String.intercalate "\n" (lines.drop (i + 1 + j))

/-- `_update_weight_table_in_prompt` from `orchestrator/server.py`. -/
def _update_weight_table_in_prompt (prompt_text : String)
    (weights : List (String × ℚ)) : String :=
  replaceWeightSection prompt_text (newWeightTable weights)

/-- `update_weights` from `orchestrator/server.py` as a state
transition: validates the key set and the weight sum, then stores the
weights, rewrites the stored orchestrator prompt (when present and
non-empty) together with the live instruction, and reloads the decision
engine's cached config from the store.  A raised `HTTPException` is
modelled by an `Except.error (status, message)` second component with an
unchanged state. -/
def update_weights (st : ServerState) (w : List (String × ℚ)) :
    ServerState × Except (Nat × String) (List (String × ℚ)) :=
  if keysSetEq (w.map Prod.fst) requiredKeys = true then
    if 99/100 ≤ (w.map Prod.snd).sum ∧ (w.map Prod.snd).sum ≤ 101/100 then
      let st1 := { st with storedWeights := w }
      let st2 :=
        match st1.orchestratorPrompt with
        | some p =>
            if p ≠ "" then
              let p2 := _update_weight_table_in_prompt p w
              { st1 with orchestratorPrompt := some p2, instruction := p2 }
            else st1
        | none => st1
      let st3 := { st2 with cachedWeights := st2.storedWeights,
                            cachedThresholds := st2.storedThresholds }
      (st3, Except.ok w)
    else
      (st, Except.error (400, "Weights must sum to 1.0"))
  else
    (st, Except.error (400,
      "Must provide all keys: technical, fundamental, news, expert, risk"))

/-- A concrete server state used to instantiate the validation
theorem. -/
def sampleState : ServerState :=
  { storedWeights := DecisionEngine.DEFAULT_WEIGHTS
    storedThresholds := DecisionEngine.DEFAULT_THRESHOLDS
    orchestratorPrompt := none
    instruction := ""
    cachedWeights := DecisionEngine.DEFAULT_WEIGHTS
    cachedThresholds := DecisionEngine.DEFAULT_THRESHOLDS }

end OrchestratorServer

namespace RiskAgent

/-- One row of the 3-month price history (`High`/`Low`/`Close`). -/
structure PriceRow where
  high : ℚ
  low : ℚ
  close : ℚ
deriving DecidableEq, Repr

/-- True ranges for rows after the first:
`max(high - low, |high - prev_close|, |low - prev_close|)`. -/
def trGo (prev : PriceRow) : List PriceRow → List ℚ
  | [] => []
  | r :: rs =>
      max (max (r.high - r.low) |r.high - prev.close|) |r.low - prev.close|
        :: trGo r rs

/-- The true-range series of `calculate_position_size`.  For the first
row `close.shift(1)` is NaN, and `max(x, NaN)` under Python's `max`
keeps `x`, so the first true range is `high - low`. -/
def trueRanges : List PriceRow → List ℚ
  | [] => []
  | r :: rs => (r.high - r.low) :: trGo r rs

/-- `tr.rolling(window=14).mean().iloc[-1]`: the mean of the last 14
true ranges (meaningful only when at least 14 rows exist; the caller
guards). -/
def atr14 (rows : List PriceRow) : ℚ :=
  ((trueRanges rows).drop (rows.length - 14)).sum / 14

/-- `float(hist["Close"].iloc[-1])`: the last close. -/
def lastClose (rows : List PriceRow) : ℚ :=
  ((rows.map PriceRow.close).getLast?).getD 0

/-- The result dict of `calculate_position_size`
(`status = "success"` fields, or `status = "error"` with a message;
unused fields keep their defaults). -/
structure PositionSizingResult where
  status : String
  ticker : String
  market : String
  current_price : ℚ := 0
  atr_14 : ℚ := 0
  volatility_pct : ℚ := 0
  position_size : ℤ := 0
  stop_loss_price : ℚ := 0
  take_profit_price : ℚ := 0
  investment_amount : ℚ := 0
  max_loss_amount : ℚ := 0
  risk_level : String := ""
  risk_reward_ratio : ℚ := 0
  confidence : ℚ := 0
  error : Option String := none
deriving DecidableEq, Repr

/-- The ticker-suffix preprocessing at the top of
`calculate_position_size`. -/
def adjustTicker (ticker market : String) : String :=
  if market = "KR" && !(ticker.endsWith ".KS" || ticker.endsWith ".KQ") then
    if ticker.all Char.isDigit && ticker.length == 6 then ticker ++ ".KS"
    else ticker
  else ticker

/-- `calculate_position_size` from `sub_agents/risk_agent/tools.py`, with
the `yfinance` history fetch abstracted as `yfHist`.  The blanket
`except Exception` handler turns the two division-by-zero sites and the
`int(NaN)` of a too-short history into error results. -/
def calculate_position_size (yfHist : String → List PriceRow)
    (ticker market : String) (account_balance : ℚ := 10000000)
    (risk_per_trade : ℚ := 2/100) : PositionSizingResult :=
  let t := adjustTicker ticker market
  let hist := yfHist t
  if hist.isEmpty then
    { status := "error", ticker := t, market := market,
      error := some ("가격 데이터를 찾을 수 없습니다: " ++ t) }
  else
    let current_price := lastClose hist
    if hist.length < 14 then
      { status := "error", ticker := t, market := market,
        error := some "cannot convert float NaN to integer" }
    else
      let atr := atr14 hist
      let stop_loss_distance := atr * 2
      let stop_loss_price := current_price - stop_loss_distance
      let take_profit_distance := stop_loss_distance * (3/2)
      let take_profit_price := current_price + take_profit_distance
      let max_risk_amount := account_balance * risk_per_trade
      if stop_loss_distance = 0 then
        { status := "error", ticker := t, market := market,
          error := some "float division by zero" }
      else if current_price = 0 then
        { status := "error", ticker := t, market := market,
          error := some "float division by zero" }
      else
        let position_size :=
          max 1 (min (pyInt (max_risk_amount / stop_loss_distance))
            (pyInt (account_balance * (20/100) / current_price)))
        let volatility_pct := atr / current_price * 100
        { status := "success", ticker := t, market := market,
          current_price := round2 current_price
          atr_14 := round2 atr
          volatility_pct := round2 volatility_pct
          position_size := position_size
          stop_loss_price := round2 stop_loss_price
          take_profit_price := round2 take_profit_price
          investment_amount := round2 ((position_size : ℚ) * current_price)
          max_loss_amount := round2 ((position_size : ℚ) * stop_loss_distance)
          risk_level :=
            if volatility_pct > 5 then "high"
            else if volatility_pct > 5/2 then "medium"
            else "low"
          risk_reward_ratio := round2 (take_profit_distance / stop_loss_distance)
          confidence := if hist.length ≥ 60 then 8/10 else 5/10 }

/-- A concrete 14-row history (each day: high 2, low 1, close 1) used to
instantiate the position-sizing theorem. -/
def rows14 : List PriceRow := List.replicate 14 { high := 2, low := 1, close := 1 }

end RiskAgent

namespace TickerUtils

/-- The characters stripped by Python's `str.strip()` (ASCII fragment:
space, tab, newline, carriage return, vertical tab, form feed). -/
def isPySpace (c : Char) : Bool :=
  c.toNat = 32 || c.toNat = 9 || c.toNat = 10 || c.toNat = 13
    || c.toNat = 11 || c.toNat = 12

/-- `str.strip()` on the character list. -/
def pyStripList (l : List Char) : List Char :=
  ((l.dropWhile isPySpace).reverse.dropWhile isPySpace).reverse

/-- `str.strip()`. -/
def pyStrip (s : String) : String := ⟨pyStripList s.data⟩

/-- `str.endswith(suffix)`. -/
def pyEndsWith (s suffix : String) : Bool := suffix.data.isSuffixOf s.data

/-- The regex class `\d` / `str.isdigit` on one character (ASCII
fragment). -/
def isAsciiDigit (c : Char) : Bool := 48 ≤ c.toNat && c.toNat ≤ 57

/-- An uppercase ASCII letter (the regex class `[A-Z]`). -/
def isUpperAlpha (c : Char) : Bool := 65 ≤ c.toNat && c.toNat ≤ 90

/-- `str.upper()` on one character (ASCII fragment). -/
def pyUpperChar (c : Char) : Char :=
  if 97 ≤ c.toNat && c.toNat ≤ 122 then Char.ofNat (c.toNat - 32) else c

/-- `str.upper()` (ASCII fragment). -/
def pyUpper (s : String) : String := ⟨s.data.map pyUpperChar⟩

/-- `str.lower()` on one character (ASCII fragment). -/
def pyLowerChar (c : Char) : Char :=
  if 65 ≤ c.toNat && c.toNat ≤ 90 then Char.ofNat (c.toNat + 32) else c

/-- `str.lower()` (ASCII fragment). -/
def pyLower (s : String) : String := ⟨s.data.map pyLowerChar⟩

/-- `cleaned.isdigit()` (`False` on the empty string). -/
def pyIsDigitStr (s : String) : Bool :=
  !s.data.isEmpty && s.data.all isAsciiDigit

/-- The regex `^\d{6}\.(KS|KQ)$` from `shared/ticker_utils.py`. -/
def matchKRCode (s : String) : Bool :=
  s.data.length == 9 && (s.data.take 6).all isAsciiDigit
    && (s.data.drop 6 == ".KS".data || s.data.drop 6 == ".KQ".data)

/-- The optional `(-[A-Z])?$` tail of the US-ticker regex. -/
def tailOk : List Char → Bool
  | [] => true
  | [d, c] => d == '-' && isUpperAlpha c
  | _ => false

/-- The regex `^[A-Z]{1,5}(-[A-Z])?$` from `shared/ticker_utils.py`. -/
def matchUSTicker (s : String) : Bool :=
  !(s.data.takeWhile isUpperAlpha).isEmpty
    && decide ((s.data.takeWhile isUpperAlpha).length ≤ 5)
    && tailOk (s.data.dropWhile isUpperAlpha)

/-- The verb/particle suffixes stripped by `_clean_query`. -/
def CLEAN_SUFFIXES : List String :=
  ["분석해줘", "분석해주세요", "분석해", "분석하기", "분석",
   "알려줘", "알려주세요", "조회해줘", "조회해", "조회",
   "검색해줘", "검색해", "검색", "찾아줘", "찾아",
   "보여줘", "보여주세요"]

/-- `_clean_query` from `shared/ticker_utils.py`: strip, then remove the
first matching suffix (and strip again). -/
def _clean_query (query : String) : String :=
  let cleaned := pyStrip query
  match CLEAN_SUFFIXES.find? (fun suf => pyEndsWith cleaned suf) with
  | some suf =>
      pyStrip ⟨cleaned.data.take (cleaned.data.length - suf.data.length)⟩
  | none => cleaned

/-- The fields of `yf.Ticker(t).info` read by the resolver. -/
structure TickerInfo where
  regularMarketPrice : Option ℚ := none
  shortName : Option String := none
  longName : Option String := none

/-- One entry of `yf.Search(q).quotes`. -/
structure SearchQuote where
  symbol : String := ""
  exchange : String := ""
  shortname : String := ""

/-- The external `yfinance` world: `info` is `yf.Ticker(t).info`
(`.error` models a raised exception), `search q n` is
`yf.Search(q, max_results=n).quotes` (`.error` models a raised
exception). -/
structure YFOracle where
  info : String → Except String TickerInfo
  search : String → Nat → Except Unit (List SearchQuote)

/-- Python truthiness of `info.get("regularMarketPrice")`. -/
def truthyPrice (i : TickerInfo) : Bool :=
  match i.regularMarketPrice with
  | some p => p != 0
  | none => false

/-- `info.get("shortName", info.get("longName", default))`. -/
def companyName (i : TickerInfo) (default : String) : String :=
  i.shortName.getD (i.longName.getD default)

/-- The live-quote check of resolution step 3: `yf.Ticker(t).info`
succeeds and carries a truthy `regularMarketPrice`. -/
def liveQuoteOk (yf : YFOracle) (t : String) : Bool :=
  match yf.info t with
  | .ok i => truthyPrice i
  | .error _ => false

/-- The result dict of `lookup_ticker`. -/
structure LookupResult where
  status : String
  ticker : String := ""
  market : String := ""
  company_name : String := ""
  error : Option String := none

/-- `_US_NAME_MAP` from `shared/ticker_utils.py`. -/
def US_NAME_MAP : List (String × String) :=
  [("애플", "AAPL"), ("마이크로소프트", "MSFT"), ("구글", "GOOGL"),
   ("알파벳", "GOOGL"), ("아마존", "AMZN"), ("메타", "META"),
   ("페이스북", "META"), ("엔비디아", "NVDA"), ("테슬라", "TSLA"),
   ("넷플릭스", "NFLX"), ("인텔", "INTC"), ("AMD", "AMD"),
   ("퀄컴", "QCOM"), ("브로드컴", "AVGO"), ("마이크론", "MU"),
   ("텍사스인스트루먼트", "TXN"), ("ASML", "ASML"), ("TSMC", "TSM"),
   ("대만반도체", "TSM"), ("JP모건", "JPM"), ("골드만삭스", "GS"),
   ("뱅크오브아메리카", "BAC"), ("웰스파고", "WFC"), ("씨티그룹", "C"),
   ("비자", "V"), ("마스터카드", "MA"), ("페이팔", "PYPL"),
   ("버크셔해서웨이", "BRK-B"), ("존슨앤존슨", "JNJ"), ("화이자", "PFE"),
   ("모더나", "MRNA"), ("유나이티드헬스", "UNH"), ("애브비", "ABBV"),
   ("일라이릴리", "LLY"), ("머크", "MRK"), ("코카콜라", "KO"),
   ("펩시코", "PEP"), ("맥도날드", "MCD"), ("나이키", "NKE"),
   ("스타벅스", "SBUX"), ("월마트", "WMT"), ("코스트코", "COST"),
   ("홈디포", "HD"), ("프록터앤갬블", "PG"), ("보잉", "BA"),
   ("캐터필러", "CAT"), ("록히드마틴", "LMT"), ("3M", "MMM"),
   ("GE", "GE"), ("허니웰", "HON"), ("엑손모빌", "XOM"),
   ("셰브론", "CVX"), ("리비안", "RIVN"), ("루시드", "LCID"),
   ("디즈니", "DIS"), ("워너브라더스", "WBD"), ("세일즈포스", "CRM"),
   ("어도비", "ADBE"), ("오라클", "ORCL"), ("시스코", "CSCO"),
   ("IBM", "IBM"), ("팔란티어", "PLTR"), ("스노우플레이크", "SNOW"),
   ("줌", "ZM"), ("쇼피파이", "SHOP"), ("스퀘어", "SQ"),
   ("블록", "SQ"), ("로빈후드", "HOOD"), ("코인베이스", "COIN"),
   ("크라우드스트라이크", "CRWD"), ("옥타", "OKTA"), ("도큐사인", "DOCU"),
   ("스포티파이", "SPOT"), ("에어비앤비", "ABNB"), ("우버", "UBER"),
   ("리프트", "LYFT"), ("도어대시", "DASH")]

/-- `_KR_NAME_MAP` from `shared/ticker_utils.py`. -/
def KR_NAME_MAP : List (String × String) :=
  [("삼성전자", "Samsung Electronics"), ("SK하이닉스", "SK Hynix"),
   ("현대차", "Hyundai Motor"), ("현대자동차", "Hyundai Motor"),
   ("LG에너지솔루션", "LG Energy Solution"), ("기아", "Kia Corp"),
   ("셀트리온", "Celltrion"), ("KB금융", "KB Financial"),
   ("신한지주", "Shinhan Financial"), ("포스코홀딩스", "POSCO Holdings"),
   ("NAVER", "Naver Corp"), ("네이버", "Naver Corp"),
   ("카카오", "Kakao Corp"), ("LG전자", "LG Electronics"),
   ("삼성SDI", "Samsung SDI"), ("삼성바이오로직스", "Samsung Biologics"),
   ("현대모비스", "Hyundai Mobis"), ("한국전력", "Korea Electric Power"),
   ("SK이노베이션", "SK Innovation"), ("삼성물산", "Samsung C&T"),
   ("SK텔레콤", "SK Telecom"), ("KT", "KT Corp"),
   ("하나금융지주", "Hana Financial"), ("우리금융지주", "Woori Financial"),
   ("LG화학", "LG Chem"), ("한화에어로스페이스", "Hanwha Aerospace"),
   ("크래프톤", "Krafton"), ("두산에너빌리티", "Doosan Enerbility")]

/-- Association-list lookup modelling `dict.get(key)`. -/
def sGet (m : List (String × String)) (k : String) : Option String :=
  (m.find? (fun p => p.1 == k)).map Prod.snd

/-- `_US_NAME_MAP_LOWER`: keys lowercased (no key collisions occur, so
first-match lookup agrees with the Python dict comprehension). -/
def US_NAME_MAP_LOWER : List (String × String) :=
  US_NAME_MAP.map (fun p => (pyLower p.1, p.2))

/-- `_KR_NAME_MAP_LOWER`: lowercased key to original key. -/
def KR_NAME_MAP_LOWER : List (String × String) :=
  KR_NAME_MAP.map (fun p => (pyLower p.1, p.1))

/-- The US exchange codes recognized in the fallback search. -/
def US_EXCHANGES : List String :=
  ["NMS", "NYQ", "NGM", "NCM", "NAS", "NYSE", "NASDAQ"]

/-- `lookup_kr_ticker` from `shared/ticker_utils.py`. -/
def lookup_kr_ticker (yf : YFOracle) (company_name : String) :
    Option String :=
  let cleaned := pyStrip company_name
  if pyIsDigitStr cleaned && cleaned.data.length == 6 then
    some (cleaned ++ ".KS")
  else if matchKRCode cleaned then some cleaned
  else
    let en_name := (sGet KR_NAME_MAP cleaned).getD cleaned
    match yf.search en_name 5 with
    | .error _ => none
    | .ok quotes =>
        (quotes.find? (fun q =>
          pyEndsWith q.symbol ".KS" || pyEndsWith q.symbol ".KQ")).map
          SearchQuote.symbol

/-- One fallback-search quote triggers a return when any of the three
classification rules fires. -/
def quoteHit (q : SearchQuote) : Bool :=
  pyEndsWith q.symbol ".KS" || pyEndsWith q.symbol ".KQ"
    || US_EXCHANGES.contains q.exchange
    || !(pyEndsWith q.symbol ".T" || pyEndsWith q.symbol ".HK"
        || pyEndsWith q.symbol ".L" || pyEndsWith q.symbol ".PA"
        || pyEndsWith q.symbol ".DE")

/-- Resolution step 6 of `lookup_ticker` (fallback `yf.Search`), followed
by the final not-found error. -/
def _search_step (yf : YFOracle) (cleaned : String) : LookupResult :=
  let errRes : LookupResult :=
    { status := "error", error := some ("종목을 찾을 수 없습니다: " ++ cleaned) }
  match yf.search cleaned 10 with
  | .error _ => errRes
  | .ok quotes =>
      match quotes.find? quoteHit with
      | none => errRes
      | some q =>
          if pyEndsWith q.symbol ".KS" || pyEndsWith q.symbol ".KQ" then
            { status := "success", ticker := q.symbol, market := "KR",
              company_name :=
                if q.shortname ≠ "" then q.shortname else cleaned }
          else
            { status := "success", ticker := q.symbol, market := "US",
              company_name :=
                if q.shortname ≠ "" then q.shortname else cleaned }

/-- Resolution step 5 of `lookup_ticker` (Korean company-name table;
note that the matched canonical name replaces `cleaned` for the
subsequent fallback search). -/
def _kr_name_step (yf : YFOracle) (cleaned : String) : LookupResult :=
  let canonical := sGet KR_NAME_MAP_LOWER (pyLower cleaned)
  if canonical.isSome || (sGet KR_NAME_MAP cleaned).isSome then
    let cleaned2 := canonical.getD cleaned
    match lookup_kr_ticker yf cleaned2 with
    | some kt =>
        match yf.info kt with
        | .ok i =>
            { status := "success", ticker := kt, market := "KR",
              company_name := companyName i cleaned2 }
        | .error _ =>
            { status := "success", ticker := kt, market := "KR",
              company_name := cleaned2 }
    | none => _search_step yf cleaned2
  else _search_step yf cleaned

/-- Resolution step 4 of `lookup_ticker` (US company-name table,
case-insensitive). -/
def _us_name_step (yf : YFOracle) (cleaned : String) : LookupResult :=
  match (sGet US_NAME_MAP cleaned).orElse
      (fun _ => sGet US_NAME_MAP_LOWER (pyLower cleaned)) with
  | some t =>
      match yf.info t with
      | .ok i =>
          { status := "success", ticker := t, market := "US",
            company_name := companyName i cleaned }
      | .error _ =>
          { status := "success", ticker := t, market := "US",
            company_name := cleaned }
  | none => _kr_name_step yf cleaned

/-- `lookup_ticker` from `shared/ticker_utils.py`: clean the query, then
apply the resolution strategies in order (canonical KR ticker, bare
6-digit code, US ticker pattern with live-quote check, US name table,
KR name table, fallback search). -/
def lookup_ticker (yf : YFOracle) (query : String) : LookupResult :=
  let cleaned := _clean_query query
  if matchKRCode cleaned then
    match yf.info cleaned with
    | .ok i =>
        { status := "success", ticker := cleaned, market := "KR",
          company_name := companyName i cleaned }
    | .error _ =>
        { status := "success", ticker := cleaned, market := "KR",
          company_name := cleaned }
  else if pyIsDigitStr cleaned && cleaned.data.length == 6 then
    let t1 := cleaned ++ ".KS"
    let errRes : LookupResult :=
      { status := "error",
        error := some ("종목을 찾을 수 없습니다: " ++ cleaned) }
    match yf.info t1 with
    | .ok i1 =>
        if truthyPrice i1 then
          { status := "success", ticker := t1, market := "KR",
            company_name := companyName i1 cleaned }
        else
          let t2 := cleaned ++ ".KQ"
          match yf.info t2 with
          | .ok i2 =>
              if truthyPrice i2 then
                { status := "success", ticker := t2, market := "KR",
                  company_name := companyName i2 cleaned }
              else errRes
          | .error _ => errRes
    | .error _ => errRes
  else
    let tU := pyUpper cleaned
    if matchUSTicker tU then
      match yf.info tU with
      | .ok i =>
          if truthyPrice i then
            { status := "success", ticker := tU, market := "US",
              company_name := companyName i tU }
          else _us_name_step yf cleaned
      | .error _ => _us_name_step yf cleaned
    else _us_name_step yf cleaned

/-- A concrete benign market-data oracle (every symbol quotes at 100)
used to instantiate the idempotence theorem. -/
def sampleOracle : YFOracle :=
  { info := fun _ => Except.ok
      { regularMarketPrice := some 100, shortName := some "Sample Corp" }
    search := fun _ _ => Except.ok [] }

end TickerUtils

section DecisionEngineTheorems

open DecisionEngine

/-- Claim C1: `compute_final_score` returns
`round(Σ_k weight[k] * agent_results.get(k, 0.0), 4)` where `k` ranges over
the keys of the weight mapping, and a peer missing from `agent_results`
contributes exactly zero (filling every missing peer with an explicit 0.0
leaves the result unchanged). -/
theorem compute_final_score_matches_combineScores_spec
    (weights : List (String × ℚ)) (m : String → Option ℚ) :
    compute_final_score weights m = combineScores_spec weights m ∧
    compute_final_score weights m
      = compute_final_score weights (fun k => some (getScore m k)) := by
  constructor
  · unfold compute_final_score combineScores_spec
    congr 1
    congr 1
    apply List.map_congr_left
    intro kw _
    exact mul_comm _ _
  · rfl

/-- Claim C2 (counterexample): with thresholds `{buy: 0, sell: 1}` (which the
endpoint accepts, since `sell < buy` is not validated) and score `1/2`, the
code returns BUY, refuting both "SELL iff score < sell threshold" and
"score equal to a threshold yields HOLD" (at score `1 = sell`). -/
theorem determine_action_claim_fails_without_ordered_thresholds :
    ¬ ((determine_action ⟨0, 1⟩ (1/2) = "SELL") ↔ ((1:ℚ)/2 < 1)) ∧
    determine_action ⟨0, 1⟩ 1 ≠ "HOLD" := by
  have hhalf : determine_action ⟨0, 1⟩ (1/2) = "BUY" := by
    unfold determine_action; norm_num
  have hone : determine_action ⟨0, 1⟩ 1 = "BUY" := by
    unfold determine_action; norm_num
  constructor
  · intro h
    have hsell : determine_action ⟨0, 1⟩ (1/2) = "SELL" := h.mpr (by norm_num)
    rw [hhalf] at hsell
    exact absurd hsell (by decide)
  · rw [hone]
    decide

/-- Claim C2 (amended): for thresholds with `sell ≤ buy` (the documented
`ThresholdConfig` invariant), `determine_action` returns BUY iff the score is
strictly above the buy threshold, SELL iff strictly below the sell
threshold, HOLD otherwise, and a score equal to either threshold yields
HOLD. -/
theorem determine_action_characterization
    (th : Thresholds) (hord : th.sell ≤ th.buy) (s : ℚ) :
    (determine_action th s = "BUY" ↔ th.buy < s) ∧
    (determine_action th s = "SELL" ↔ s < th.sell) ∧
    (determine_action th s = "HOLD" ↔ (s ≤ th.buy ∧ th.sell ≤ s)) ∧
    ((s = th.buy ∨ s = th.sell) → determine_action th s = "HOLD") := by
  unfold determine_action
  split_ifs with h1 h2
  · refine ⟨by simp [h1], ?_, ?_, ?_⟩
    · constructor
      · intro hx; exact absurd hx (by decide)
      · intro hx; exact absurd (lt_trans (lt_of_lt_of_le hx hord) h1) (lt_irrefl s)
    · constructor
      · intro hx; exact absurd hx (by decide)
      · rintro ⟨hle, -⟩; exact absurd h1 (not_lt.mpr hle)
    · rintro (rfl | rfl)
      · exact absurd h1 (lt_irrefl _)
      · exact absurd h1 (not_lt.mpr hord)
  · refine ⟨?_, by simp [h2], ?_, ?_⟩
    · constructor
      · intro hx; exact absurd hx (by decide)
      · intro hx; exact absurd hx h1
    · constructor
      · intro hx; exact absurd hx (by decide)
      · rintro ⟨-, hge⟩; exact absurd h2 (not_lt.mpr hge)
    · rintro (rfl | rfl)
      · exact absurd h2 (not_lt.mpr hord)
      · exact absurd h2 (lt_irrefl _)
  · push_neg at h1 h2
    refine ⟨?_, ?_, ?_, fun _ => rfl⟩
    · constructor
      · intro hx; exact absurd hx (by decide)
      · intro hx; exact absurd hx (not_lt.mpr h1)
    · constructor
      · intro hx; exact absurd hx (by decide)
      · intro hx; exact absurd hx (not_lt.mpr h2)
    · exact ⟨fun _ => ⟨h1, h2⟩, fun _ => rfl⟩

/-- Claim C2 witness: the characterization instantiated at the default
thresholds `{buy: 0.3, sell: -0.3}` and score `1/2`. -/
theorem determine_action_characterization_witness :
    determine_action DEFAULT_THRESHOLDS (1/2) = "BUY"
      ↔ DEFAULT_THRESHOLDS.buy < 1/2 :=
  (determine_action_characterization DEFAULT_THRESHOLDS
    (by norm_num [DEFAULT_THRESHOLDS]) (1/2)).1

/-- Claim C4: the quantity in the `TradeDecision` built by `make_decision`
is 0 whenever the action is HOLD; otherwise `max 1 (position_size // 2)`
when the risk output reports high risk; otherwise the risk output's
position size unchanged. -/
theorem make_decision_quantity
    (w : List (String × ℚ)) (th : Thresholds) (ticker market : String)
    (m : String → Option ℚ) (risk : RiskOutput) (cp : ℚ) :
    (make_decision w th ticker market m risk cp).quantity =
      if determine_action th (compute_final_score w m) = "HOLD" then 0
      else if risk.risk_level = some "high" then
        max 1 (Int.fdiv (risk.position_size.getD 0) 2)
      else risk.position_size.getD 0 := rfl

/-- Claim C8 (counterexample): with the weight mapping `{technical: 1.0}`
(which sums to 1.0) and the peer-score map sending every peer to 0.00003,
scaling every score by 10 does not scale the final score by 10, because
rounding to 4 decimal places is not homogeneous: the unscaled score rounds
to 0 while the scaled one rounds to 0.0003 ≠ 10 * 0. -/
theorem compute_final_score_not_linear :
    weightSumOk [("technical", 1)] ∧
    compute_final_score [("technical", 1)]
        (scaleScores 10 (fun _ => some (3/100000)))
      ≠ 10 * compute_final_score [("technical", 1)] (fun _ => some (3/100000)) := by
  refine ⟨by norm_num [weightSumOk], ?_⟩
  have hfloor : ⌊(3:ℚ)/10⌋ = 0 := by
    rw [Int.floor_eq_iff] <;> norm_num
  have hL : compute_final_score [("technical", 1)]
      (scaleScores 10 (fun _ => some (3/100000))) = 3/10000 := by
    unfold compute_final_score scaleScores getScore round4 pyRoundInt
    norm_num
  have hR : compute_final_score [("technical", 1)]
      (fun _ => some (3/100000)) = 0 := by
    unfold compute_final_score getScore round4 pyRoundInt
    norm_num [hfloor]
  rw [hL, hR]
  norm_num

/-- Claim C8 (amended): for every weight mapping summing to 1.0 ± 0.01, the
weighted sum computed inside `compute_final_score` (before the final
rounding to 4 decimal places) is linear: scaling every peer score by `k`
scales it by `k`, and `compute_final_score` of the scaled scores equals
`round4` of `k` times the unscaled weighted sum. -/
theorem weightedSum_linear
    (w : List (String × ℚ)) (hw : weightSumOk w) (k : ℚ)
    (m : String → Option ℚ) :
    weightedSum w (scaleScores k m) = k * weightedSum w m ∧
    compute_final_score w (scaleScores k m)
      = round4 (k * weightedSum w m) := by
  have hget : ∀ key, getScore (scaleScores k m) key = k * getScore m key := by
    intro key
    unfold getScore scaleScores
    cases m key <;> simp
  have hsum : weightedSum w (scaleScores k m) = k * weightedSum w m := by
    clear hw
    unfold weightedSum
    induction w with
    | nil => simp
    | cons kw tl ih =>
        rw [List.map_cons, List.sum_cons, ih, List.map_cons, List.sum_cons,
          hget kw.1]
        ring
  exact ⟨hsum, by unfold compute_final_score; rw [show
    ((w.map (fun kw => getScore (scaleScores k m) kw.1 * kw.2)).sum)
      = weightedSum w (scaleScores k m) from rfl, hsum]⟩

/-- Claim C8 witness: linearity of the un-rounded weighted sum at the
default weights, scalar 2, and all peer scores equal to 1. -/
theorem weightedSum_linear_witness :
    weightedSum DEFAULT_WEIGHTS (scaleScores 2 (fun _ => some 1))
      = 2 * weightedSum DEFAULT_WEIGHTS (fun _ => some 1) ∧
    compute_final_score DEFAULT_WEIGHTS (scaleScores 2 (fun _ => some 1))
      = round4 (2 * weightedSum DEFAULT_WEIGHTS (fun _ => some 1)) :=
  weightedSum_linear DEFAULT_WEIGHTS
    (by norm_num [weightSumOk, DEFAULT_WEIGHTS]) 2 (fun _ => some 1)

/-- Claim C10: the final score depends only on the peer categories named in
the weight mapping: two score maps that agree on every weight key produce
the same final score. -/
theorem compute_final_score_noninterference
    (w : List (String × ℚ)) (m1 m2 : String → Option ℚ)
    (h : ∀ k ∈ w.map Prod.fst, m1 k = m2 k) :
    compute_final_score w m1 = compute_final_score w m2 := by
  unfold compute_final_score
  congr 1
  congr 1
  apply List.map_congr_left
  intro kw hkw
  have hk : m1 kw.1 = m2 kw.1 := h kw.1 (List.mem_map_of_mem _ hkw)
  unfold getScore
  rw [hk]

/-- Claim C10 witness: an entry under the unrecognized key
"unrecognized_peer" does not change the final score at the default
weights. -/
theorem compute_final_score_noninterference_witness :
    compute_final_score DEFAULT_WEIGHTS
        (fun k => if k = "unrecognized_peer" then some 5 else some 0)
      = compute_final_score DEFAULT_WEIGHTS (fun _ => some 0) :=
  compute_final_score_noninterference DEFAULT_WEIGHTS
    (fun k => if k = "unrecognized_peer" then some 5 else some 0)
    (fun _ => some 0)
    (by intro k hk
        simp only [DEFAULT_WEIGHTS, List.map_cons, List.map_nil,
          List.mem_cons, List.not_mem_nil, or_false] at hk
        rcases hk with rfl | rfl | rfl | rfl | rfl <;> rfl)

end DecisionEngineTheorems

section OrchestratorToolsTheorems

open OrchestratorTools

/-- The extraction of `orchestrator/tools.py` agrees with the spec's
ordered first-non-empty strategy. -/
theorem extract_response_text_eq_spec (r : RpcResponse) :
    _extract_response_text r = extractText_spec r := by
  rcases r with ⟨err, arts, smp⟩
  cases arts with
  | nil =>
      simp [_extract_response_text, extractText_spec, textPathA, textPathB]
  | cons a as =>
      cases hp : a.parts with
      | nil =>
          simp [_extract_response_text, extractText_spec, textPathA,
            textPathB, hp]
      | cons p ps =>
          by_cases ht : p.text.getD "" = ""
          · simp [_extract_response_text, extractText_spec, textPathA,
              textPathB, hp, ht]
          · simp [_extract_response_text, extractText_spec, textPathA,
              textPathB, hp, ht]

/-- A failing behavior always produces a `status = "error"` entry. -/
theorem call_single_agent_status_of_failure (b : CallBehavior)
    (name url msg : String) (t : ℚ) (h : isFailure b = true) :
    (_call_single_agent b name url msg t).status = "error" := by
  cases b with
  | timeout => rfl
  | connectError => rfl
  | exn m => rfl
  | response body =>
      simp only [isFailure, Bool.or_eq_true, beq_iff_eq] at h
      simp only [_call_single_agent]
      cases he : body.error with
      | some e => rfl
      | none =>
          rcases h with h | h
          · rw [he] at h; exact absurd h (by simp)
          · simp [h]

/-- A non-failing behavior always produces a `status = "success"` entry. -/
theorem call_single_agent_status_of_success (b : CallBehavior)
    (name url msg : String) (t : ℚ) (h : isFailure b = false) :
    (_call_single_agent b name url msg t).status = "success" := by
  cases b with
  | timeout => exact absurd h (by simp [isFailure])
  | connectError => exact absurd h (by simp [isFailure])
  | exn m => exact absurd h (by simp [isFailure])
  | response body =>
      simp only [isFailure, Bool.or_eq_false_iff, beq_eq_false_iff_ne] at h
      obtain ⟨h1, h2⟩ := h
      simp only [_call_single_agent]
      cases he : body.error with
      | some e => rw [he] at h1; simp at h1
      | none => simp [h2]

/-- Filtering the name-keyed aggregation for successes counts the same
entries as filtering the raw result list. -/
theorem zip_filter_success_length (cs : List AgentCfg)
    (f : AgentCfg → AgentResult) :
    ((((cs.zip (cs.map f)).map (fun p => (p.1.name, p.2))).filter
        (fun p => p.2.status == "success")).length)
      = (((cs.map f).filter (fun r => r.status == "success")).length) := by
  induction cs with
  | nil => rfl
  | cons c cs ih =>
      simp only [List.map_cons, List.zip_cons_cons, List.filter_cons]
      cases h : ((f c).status == "success") <;> simp [h, ih]

/-- Claim C3: `analyze_all_agents` is total in every per-peer network
behavior (no peer-level failure escapes as an exception): it always
returns one entry per configured peer, `total_count = 5`,
`success_count` = the number of `status = "success"` entries, every
failing peer's entry has `status = "error"`, and every non-failing
peer's entry has `status = "success"`. -/
theorem analyze_all_agents_bulkhead (net : String → CallBehavior)
    (env : String → Option String) (t : ℚ) (ticker market : String) :
    (analyze_all_agents net env t ticker market).total_count = 5 ∧
    (analyze_all_agents net env t ticker market).agents.map Prod.fst
      = AGENT_CONFIG.map AgentCfg.name ∧
    (analyze_all_agents net env t ticker market).success_count
      = (((analyze_all_agents net env t ticker market).agents.filter
          (fun p => p.2.status == "success")).length) ∧
    (∀ cfg ∈ AGENT_CONFIG, isFailure (net cfg.name) = true →
      (lookupAgent cfg.name
          (analyze_all_agents net env t ticker market).agents).map
        AgentResult.status = some "error") ∧
    (∀ cfg ∈ AGENT_CONFIG, isFailure (net cfg.name) = false →
      (lookupAgent cfg.name
          (analyze_all_agents net env t ticker market).agents).map
        AgentResult.status = some "success") := by
  refine ⟨rfl, rfl, ?_, ?_, ?_⟩
  · exact (zip_filter_success_length AGENT_CONFIG _).symm
  · intro cfg hcfg hfail
    fin_cases hcfg <;>
      simp [analyze_all_agents, AGENT_CONFIG, lookupAgent,
        call_single_agent_status_of_failure _ _ _ _ _ hfail]
  · intro cfg hcfg hsucc
    fin_cases hcfg <;>
      simp [analyze_all_agents, AGENT_CONFIG, lookupAgent,
        call_single_agent_status_of_success _ _ _ _ _ hsucc]

/-- Claim C3 witness: 2 peers timing out and 3 succeeding yields
`success_count = 3`, `total_count = 5`, and an error entry for a
timed-out peer. -/
theorem analyze_all_agents_bulkhead_witness :
    (analyze_all_agents
        (fun n => if n = "news_agent" ∨ n = "fundamental_agent" then
            CallBehavior.timeout
          else CallBehavior.response
            { artifacts := [{ parts := [{ text := some "ok" }] }] })
        (fun _ => none) 90 "005930" "KR").success_count = 3 ∧
    (analyze_all_agents
        (fun n => if n = "news_agent" ∨ n = "fundamental_agent" then
            CallBehavior.timeout
          else CallBehavior.response
            { artifacts := [{ parts := [{ text := some "ok" }] }] })
        (fun _ => none) 90 "005930" "KR").total_count = 5 ∧
    (lookupAgent "news_agent"
        (analyze_all_agents
          (fun n => if n = "news_agent" ∨ n = "fundamental_agent" then
              CallBehavior.timeout
            else CallBehavior.response
              { artifacts := [{ parts := [{ text := some "ok" }] }] })
          (fun _ => none) 90 "005930" "KR").agents).map
      AgentResult.status = some "error" := by
  refine ⟨by rfl, ?_, ?_⟩
  · exact (analyze_all_agents_bulkhead _ _ _ _ _).1
  · exact (analyze_all_agents_bulkhead _ _ _ _ _).2.2.2.1
      { name := "news_agent", host_env := "NEWS_AGENT_HOST",
        port_env := "NEWS_AGENT_PORT", default_host := "localhost",
        default_port := "8001",
        template_lead := "다음 종목의 뉴스와 시황을 분석해주세요: " }
      (by simp [AGENT_CONFIG]) (by rfl)

/-- Claim C5: on a 2xx JSON body with no `error` field, the call extracts
the first non-empty text among path (a) `result.artifacts[0].parts[0].text`
and path (b) `result.status.message.parts[0].text`; a non-empty
extraction yields a success entry whose text is truncated to 3000
characters plus a truncation marker when longer, and an empty extraction
yields the error "Empty response". -/
theorem call_single_agent_response_contract (body : RpcResponse)
    (h : body.error = none) (name url msg : String) (t : ℚ) :
    _extract_response_text body = extractText_spec body ∧
    _call_single_agent (CallBehavior.response body) name url msg t =
      (if extractText_spec body = "" then
        { status := "error", agent := name, error := some "Empty response" }
      else
        { status := "success", agent := name,
          analysis := some
            (if (extractText_spec body).length > 3000 then
              (extractText_spec body).take 3000 ++ "\n... (truncated)"
            else extractText_spec body) }) := by
  refine ⟨extract_response_text_eq_spec body, ?_⟩
  simp only [_call_single_agent]
  rw [h, extract_response_text_eq_spec body]
  rfl

/-- Claim C5 witness: a body whose first artifact part is empty and whose
status message carries the text resolves to path (b). -/
theorem call_single_agent_response_contract_witness :
    _extract_response_text
        { error := none, artifacts := [{ parts := [{ text := some "" }] }],
          statusMessageParts := some [{ text := some "from status" }] }
      = extractText_spec
        { error := none, artifacts := [{ parts := [{ text := some "" }] }],
          statusMessageParts := some [{ text := some "from status" }] } ∧
    _call_single_agent
        (CallBehavior.response
          { error := none,
            artifacts := [{ parts := [{ text := some "" }] }],
            statusMessageParts := some [{ text := some "from status" }] })
        "news_agent" "http://localhost:8001/" "msg" 90 =
      (if extractText_spec
          { error := none, artifacts := [{ parts := [{ text := some "" }] }],
            statusMessageParts := some [{ text := some "from status" }] }
          = "" then
        { status := "error", agent := "news_agent",
          error := some "Empty response" }
      else
        { status := "success", agent := "news_agent",
          analysis := some
            (if (extractText_spec
                { error := none,
                  artifacts := [{ parts := [{ text := some "" }] }],
                  statusMessageParts :=
                    some [{ text := some "from status" }] }).length > 3000
            then
              (extractText_spec
                { error := none,
                  artifacts := [{ parts := [{ text := some "" }] }],
                  statusMessageParts :=
                    some [{ text := some "from status" }] }).take 3000
                ++ "\n... (truncated)"
            else extractText_spec
              { error := none,
                artifacts := [{ parts := [{ text := some "" }] }],
                statusMessageParts :=
                  some [{ text := some "from status" }] }) }) :=
  call_single_agent_response_contract _ rfl "news_agent"
    "http://localhost:8001/" "msg" 90

end OrchestratorToolsTheorems

section OrchestratorServerTheorems

open OrchestratorServer

/-- Claim C6: a weight-update request whose key set is not exactly the
five recognized categories, or whose values do not sum to within
[0.99, 1.01], is rejected with a 400 validation error and leaves the
whole server state (config store, prompt, instruction, cached decision
config) unchanged; a request satisfying both conditions is accepted and
the new mapping is stored (and the decision engine cache reloaded to
it). -/
theorem update_weights_validation (st : ServerState)
    (w : List (String × ℚ)) :
    (¬ (keysSetEq (w.map Prod.fst) requiredKeys = true ∧
        99/100 ≤ (w.map Prod.snd).sum ∧ (w.map Prod.snd).sum ≤ 101/100) →
      (update_weights st w).1 = st ∧
      ∃ msg, (update_weights st w).2 = Except.error (400, msg)) ∧
    ((keysSetEq (w.map Prod.fst) requiredKeys = true ∧
        99/100 ≤ (w.map Prod.snd).sum ∧ (w.map Prod.snd).sum ≤ 101/100) →
      (update_weights st w).2 = Except.ok w ∧
      (update_weights st w).1.storedWeights = w ∧
      (update_weights st w).1.cachedWeights = w) := by
  constructor
  · intro hnot
    unfold update_weights
    by_cases hk : keysSetEq (w.map Prod.fst) requiredKeys = true
    · have hs : ¬ (99/100 ≤ (w.map Prod.snd).sum ∧
          (w.map Prod.snd).sum ≤ 101/100) := fun hs => hnot ⟨hk, hs⟩
      rw [if_pos hk, if_neg hs]
      exact ⟨rfl, "Weights must sum to 1.0", rfl⟩
    · rw [if_neg hk]
      exact ⟨rfl,
        "Must provide all keys: technical, fundamental, news, expert, risk",
        rfl⟩
  · rintro ⟨hk, hs⟩
    unfold update_weights
    rw [if_pos hk, if_pos hs]
    cases hp : st.orchestratorPrompt with
    | none => simp [hp]
    | some p =>
        by_cases hpe : p ≠ ""
        · simp [hp, hpe]
        · simp [hp, hpe]

/-- Claim C6 witness: the validation theorem instantiated at a concrete
state, with the rejected request `{technical: 1.0}` (wrong key set) and
the accepted request equal to the default weights. -/
theorem update_weights_validation_witness :
    ((update_weights sampleState [("technical", 1)]).1 = sampleState ∧
      ∃ msg, (update_weights sampleState [("technical", 1)]).2
        = Except.error (400, msg)) ∧
    ((update_weights sampleState DecisionEngine.DEFAULT_WEIGHTS).2
        = Except.ok DecisionEngine.DEFAULT_WEIGHTS ∧
      (update_weights sampleState
          DecisionEngine.DEFAULT_WEIGHTS).1.storedWeights
        = DecisionEngine.DEFAULT_WEIGHTS ∧
      (update_weights sampleState
          DecisionEngine.DEFAULT_WEIGHTS).1.cachedWeights
        = DecisionEngine.DEFAULT_WEIGHTS) :=
  ⟨(update_weights_validation sampleState [("technical", 1)]).1
      (fun h => absurd h.1 (by decide)),
   (update_weights_validation sampleState DecisionEngine.DEFAULT_WEIGHTS).2
      ⟨by decide,
       by norm_num [DecisionEngine.DEFAULT_WEIGHTS],
       by norm_num [DecisionEngine.DEFAULT_WEIGHTS]⟩⟩

end OrchestratorServerTheorems

section RiskAgentTheorems

open RiskAgent

/-- Claim C7: whenever the fetched price history is non-empty, the
balance and the per-trade risk are positive, and `calculate_position_size`
reports success, the returned position size equals
`max 1 (min ⌊max_risk_amount / stop_loss_distance⌋
⌊0.20 * account_balance / current_price⌋)` and is therefore at least
1 share. -/
theorem calculate_position_size_min_one (yfHist : String → List PriceRow)
    (ticker market : String) (bal risk : ℚ)
    (hne : yfHist (adjustTicker ticker market) ≠ [])
    (hbal : 0 < bal) (hrisk : 0 < risk)
    (hs : (calculate_position_size yfHist ticker market bal risk).status
      = "success") :
    1 ≤ (calculate_position_size yfHist ticker market bal risk).position_size ∧
    (calculate_position_size yfHist ticker market bal risk).position_size
      = max 1 (min
          (pyInt (bal * risk
            / (atr14 (yfHist (adjustTicker ticker market)) * 2)))
          (pyInt (bal * (20/100)
            / lastClose (yfHist (adjustTicker ticker market))))) := by
  unfold calculate_position_size at hs ⊢
  dsimp only at hs ⊢
  split_ifs at hs ⊢ with h1 h2 h3 h4
  all_goals first
    | exact ⟨le_max_left _ _, rfl⟩
    | simp at hs

/-- Claim C7 witness: a flat 14-day history with unit daily range, a
balance of 100 and 2% risk per trade yield a successful sizing with
exactly `max 1 (min 1 20) = 1` share. -/
theorem calculate_position_size_min_one_witness :
    1 ≤ (calculate_position_size (fun _ => rows14) "AAPL" "US"
        100 (2/100)).position_size ∧
    (calculate_position_size (fun _ => rows14) "AAPL" "US"
        100 (2/100)).position_size
      = max 1 (min
          (pyInt (100 * (2/100)
            / (atr14 ((fun (_ : String) => rows14) (adjustTicker "AAPL" "US")) * 2)))
          (pyInt (100 * (20/100)
            / lastClose ((fun (_ : String) => rows14) (adjustTicker "AAPL" "US"))))) := by
  have hs : (calculate_position_size (fun _ => rows14) "AAPL" "US"
      100 (2/100)).status = "success" := by
    norm_num [calculate_position_size, adjustTicker, rows14, atr14,
      trueRanges, trGo, lastClose, List.replicate]
  exact calculate_position_size_min_one (fun _ => rows14) "AAPL" "US"
    100 (2/100) (by simp [rows14]) (by norm_num) (by norm_num) hs

end RiskAgentTheorems

section TickerUtilsTheorems

open TickerUtils

/-- Dropping a prefix of characters none of which satisfies the predicate
is the identity. -/
theorem dropWhile_eq_self_of_forall (p : Char → Bool) (l : List Char)
    (h : ∀ c ∈ l, p c = false) : l.dropWhile p = l := by
  cases l with
  | nil => rfl
  | cons a t =>
      rw [List.dropWhile_cons, h a (by simp)]
      simp

/-- Stripping a string with no strippable character is the identity. -/
theorem pyStripList_eq_self (l : List Char)
    (h : ∀ c ∈ l, isPySpace c = false) : pyStripList l = l := by
  unfold pyStripList
  rw [dropWhile_eq_self_of_forall _ _ h,
    dropWhile_eq_self_of_forall _ _ (fun c hc => h c (List.mem_reverse.mp hc)),
    List.reverse_reverse]

/-- A non-empty suffix determines the last character. -/
theorem last_of_suffix (s l : List Char) (hs : s ≠ [])
    (h : s.isSuffixOf l = true) : l.getLast? = s.getLast? := by
  obtain ⟨t, rfl⟩ := List.isSuffixOf_iff_suffix.mp h
  exact List.getLast?_append_of_ne_nil t hs

/-- A string ending in an ASCII character does not end with a suffix
whose last character is beyond ASCII. -/
theorem pyEndsWith_false_of_last_lt (qs suf : String) (c d : Char)
    (hq : qs.data.getLast? = some c) (hsuf : suf.data.getLast? = some d)
    (hlt : c.toNat < 128) (hge : 128 ≤ d.toNat) :
    pyEndsWith qs suf = false := by
  by_contra hcon
  rw [Bool.not_eq_false] at hcon
  have hsfx : suf.data.isSuffixOf qs.data = true := hcon
  have hne : suf.data ≠ [] := by
    intro h0; rw [h0] at hsuf; simp at hsuf
  have hlast := last_of_suffix suf.data qs.data hne hsfx
  rw [hq, hsuf] at hlast
  injection hlast with hcd
  rw [hcd] at hlt
  omega

/-- A non-empty all-ASCII query with no strippable characters is left
unchanged by `_clean_query` (no Korean verb suffix can match). -/
theorem clean_query_eq_self (q : String) (hne : q.data ≠ [])
    (hns : ∀ c ∈ q.data, isPySpace c = false)
    (hascii : ∀ c ∈ q.data, c.toNat < 128) :
    _clean_query q = q := by
  have hstrip : pyStrip q = q := by
    show (⟨pyStripList q.data⟩ : String) = q
    rw [pyStripList_eq_self q.data hns]
  unfold _clean_query
  rw [hstrip]
  dsimp only
  obtain ⟨c, hc⟩ : ∃ c, q.data.getLast? = some c := by
    cases hg : q.data.getLast? with
    | some c => exact ⟨c, rfl⟩
    | none => exact absurd (List.getLast?_eq_none_iff.mp hg) hne
  have hcascii : c.toNat < 128 := hascii c (List.mem_of_mem_getLast? hc)
  have hfind : CLEAN_SUFFIXES.find? (fun suf => pyEndsWith q suf) = none := by
    rw [List.find?_eq_none]
    intro suf hm
    have hfalse : pyEndsWith q suf = false := by
      fin_cases hm <;>
        exact pyEndsWith_false_of_last_lt q _ c _ hc rfl hcascii (by decide)
    simp [hfalse]
  rw [hfind]

/-- Claim C9: ticker resolution is idempotent on canonical symbols: a
query matching the canonical domestic pattern (6 digits plus `.KS`/`.KQ`)
resolves to itself with status success regardless of the market-data
oracle, and a query matching the US ticker pattern that passes the
live-quote check resolves to itself with status success. -/
theorem lookup_ticker_idempotent (yf : YFOracle) (q : String) :
    (matchKRCode q = true →
      (lookup_ticker yf q).status = "success" ∧
      (lookup_ticker yf q).ticker = q) ∧
    (matchUSTicker q = true → liveQuoteOk yf q = true →
      (lookup_ticker yf q).status = "success" ∧
      (lookup_ticker yf q).ticker = q) := by
  constructor
  · intro h
    have h' := h
    simp only [matchKRCode, Bool.and_eq_true, beq_iff_eq, Bool.or_eq_true,
      List.all_eq_true] at h'
    obtain ⟨⟨hlen, hdig⟩, hsuf⟩ := h'
    have hqne : q.data ≠ [] := by
      intro h0; rw [h0] at hlen; simp at hlen
    have hmem : ∀ c ∈ q.data, c ∈ q.data.take 6 ∨ c ∈ q.data.drop 6 := by
      intro c hc
      rw [← List.take_append_drop 6 q.data] at hc
      exact List.mem_append.mp hc
    have hdig' : ∀ c ∈ q.data.take 6, 48 ≤ c.toNat ∧ c.toNat ≤ 57 := by
      intro c hc
      have := hdig c hc
      simpa [isAsciiDigit, Bool.and_eq_true] using this
    have hns : ∀ c ∈ q.data, isPySpace c = false := by
      intro c hc
      rcases hmem c hc with hc' | hc'
      · have hb := hdig' c hc'
        simp only [isPySpace, Bool.or_eq_false_iff, decide_eq_false_iff_not]
        omega
      · rcases hsuf with hs | hs <;> rw [hs] at hc' <;> fin_cases hc' <;> decide
    have hascii : ∀ c ∈ q.data, c.toNat < 128 := by
      intro c hc
      rcases hmem c hc with hc' | hc'
      · have hb := hdig' c hc'
        omega
      · rcases hsuf with hs | hs <;> rw [hs] at hc' <;> fin_cases hc' <;> decide
    have hcq := clean_query_eq_self q hqne hns hascii
    simp only [lookup_ticker, hcq, h, if_true]
    cases hinfo : yf.info q with
    | ok i => exact ⟨rfl, rfl⟩
    | error e => exact ⟨rfl, rfl⟩
  · intro h hlive
    have h' := h
    simp only [matchUSTicker, Bool.and_eq_true, Bool.not_eq_true',
      decide_eq_true_eq] at h'
    obtain ⟨⟨hne', hlen5⟩, htail⟩ := h'
    have hHne : q.data.takeWhile isUpperAlpha ≠ [] := by
      intro h0; rw [h0] at hne'; simp at hne'
    have hHR : q.data.takeWhile isUpperAlpha ++ q.data.dropWhile isUpperAlpha
        = q.data := List.takeWhile_append_dropWhile isUpperAlpha q.data
    have hHupper : ∀ c ∈ q.data.takeWhile isUpperAlpha,
        65 ≤ c.toNat ∧ c.toNat ≤ 90 := by
      intro c hc
      have := List.mem_takeWhile_imp hc
      simpa [isUpperAlpha, Bool.and_eq_true] using this
    have hR : q.data.dropWhile isUpperAlpha = [] ∨
        ∃ c, q.data.dropWhile isUpperAlpha = ['-', c] ∧
          65 ≤ c.toNat ∧ c.toNat ≤ 90 := by
      cases hR0 : q.data.dropWhile isUpperAlpha with
      | nil => exact Or.inl rfl
      | cons a t =>
          cases t with
          | nil =>
              rw [hR0] at htail
              exact absurd htail (by simp [tailOk])
          | cons b u =>
              cases u with
              | nil =>
                  rw [hR0] at htail
                  simp only [tailOk, Bool.and_eq_true, beq_iff_eq] at htail
                  refine Or.inr ⟨b, ?_, ?_⟩
                  · rw [htail.1]
                  · have := htail.2
                    simpa [isUpperAlpha, Bool.and_eq_true] using this
              | cons c v =>
                  rw [hR0] at htail
                  exact absurd htail (by simp [tailOk])
    have hall : ∀ c ∈ q.data, c.toNat = 45 ∨ (65 ≤ c.toNat ∧ c.toNat ≤ 90) := by
      intro c hc
      rw [← hHR] at hc
      rcases List.mem_append.mp hc with hc' | hc'
      · exact Or.inr (hHupper c hc')
      · rcases hR with hr | ⟨c', hr, hc'bound⟩
        · rw [hr] at hc'; simp at hc'
        · rw [hr] at hc'
          rcases List.mem_pair.mp hc' with rfl | rfl
          · exact Or.inl (by decide)
          · exact Or.inr hc'bound
    have hqne : q.data ≠ [] := by
      intro h0
      rw [h0] at hHne
      exact hHne rfl
    have hns : ∀ c ∈ q.data, isPySpace c = false := by
      intro c hc
      simp only [isPySpace, Bool.or_eq_false_iff, decide_eq_false_iff_not]
      rcases hall c hc with hb | hb <;> omega
    have hascii : ∀ c ∈ q.data, c.toNat < 128 := by
      intro c hc
      rcases hall c hc with hb | hb <;> omega
    have hcq := clean_query_eq_self q hqne hns hascii
    have hupper_id : pyUpper q = q := by
      show (⟨q.data.map pyUpperChar⟩ : String) = q
      have hmap : q.data.map pyUpperChar = q.data := by
        conv_rhs => rw [← List.map_id q.data]
        apply List.map_congr_left
        intro c hc
        have hle : c.toNat ≤ 90 := by
          rcases hall c hc with hb | hb <;> omega
        simp only [pyUpperChar, id]
        rw [if_neg]
        simp only [Bool.and_eq_true, decide_eq_true_eq, not_and]
        omega
      rw [hmap]
    have hlenq : q.data.length ≤ 7 := by
      rw [← hHR, List.length_append]
      rcases hR with hr | ⟨c', hr, -⟩ <;> rw [hr] <;> simp <;> omega
    have hKRfalse : matchKRCode q = false := by
      rw [Bool.eq_false_iff]
      intro hkr
      simp only [matchKRCode, Bool.and_eq_true, beq_iff_eq] at hkr
      have : q.data.length = 9 := hkr.1.1
      omega
    obtain ⟨h0, H', hH0⟩ := List.exists_cons_of_ne_nil hHne
    have h0mem : h0 ∈ q.data := by
      rw [← hHR, hH0]; simp
    have h0upper : 65 ≤ h0.toNat ∧ h0.toNat ≤ 90 :=
      hHupper h0 (by rw [hH0]; simp)
    have h0notdig : isAsciiDigit h0 = false := by
      rw [Bool.eq_false_iff]
      intro hd
      simp only [isAsciiDigit, Bool.and_eq_true, decide_eq_true_eq] at hd
      omega
    have hpd : pyIsDigitStr q = false := by
      rw [Bool.eq_false_iff]
      intro hd
      simp only [pyIsDigitStr, Bool.and_eq_true, List.all_eq_true] at hd
      have := hd.2 h0 h0mem
      rw [h0notdig] at this
      exact absurd this (by simp)
    simp only [lookup_ticker, hcq, hKRfalse, hpd, hupper_id, h,
      Bool.false_eq_true, if_false, Bool.false_and, if_true]
    cases hinfo : yf.info q with
    | error e =>
        unfold liveQuoteOk at hlive
        rw [hinfo] at hlive
        exact absurd hlive (by simp)
    | ok i =>
        have htruthy : truthyPrice i = true := by
          unfold liveQuoteOk at hlive
          rw [hinfo] at hlive
          exact hlive
        simp [htruthy]

/-- Claim C9 witness: the idempotence theorem instantiated at the
canonical domestic symbol "005930.KS" and the canonical US symbol
"AAPL" under a concrete oracle whose live-quote check passes. -/
theorem lookup_ticker_idempotent_witness :
    ((lookup_ticker sampleOracle "005930.KS").status = "success" ∧
      (lookup_ticker sampleOracle "005930.KS").ticker = "005930.KS") ∧
    ((lookup_ticker sampleOracle "AAPL").status = "success" ∧
      (lookup_ticker sampleOracle "AAPL").ticker = "AAPL") :=
  ⟨(lookup_ticker_idempotent sampleOracle "005930.KS").1 (by decide),
   (lookup_ticker_idempotent sampleOracle "AAPL").2 (by decide)
     (by simp [sampleOracle, liveQuoteOk, truthyPrice])⟩

end TickerUtilsTheorems

end StockAdk
